import Mathlib

/-!
Shallow embedding of the CampusStay student-housing booking application
(src/app.py, src/models.py) and proofs about its booking / payment /
review / favorite logic.

Monetary amounts (`price_per_month`, `total_price`) are Python floats in
the source; they are modelled as rationals `ℚ`, which is exact for the
integer-and-half-cent arithmetic the handlers perform.  Database tables
are modelled as lists of records; `db.session.commit()` of mutated ORM
objects is modelled as functional record/list update.  The external
payment provider (Stripe) is modelled by explicit parameters: session
creation returns `Option String` (`none` = provider failure) and the
provider's `payment_status` read for a session is passed in as
`Option String` (`none` = retrieval failure).
-/

/-- Row of the `accommodation` table (src/models.py, class Accommodation),
restricted to the fields the booking/payment logic reads or writes. -/
structure Accommodation where
  id : Nat
  price_per_month : ℚ
  capacity : Nat
  current_occupancy : Nat
  is_active : Bool
deriving Repr, DecidableEq

/-- Embeds `Accommodation.is_full` (src/models.py lines 70-71):
`current_occupancy >= capacity`. -/
def Accommodation.is_full (a : Accommodation) : Bool :=
  decide (a.current_occupancy ≥ a.capacity)

/-- Row of the `booking` table (src/models.py, class Booking).
`stripe_session_id` is nullable in the schema, hence `Option String`. -/
structure Booking where
  id : Nat
  user_id : Nat
  accommodation_id : Nat
  duration : String
  months : Nat
  total_price : ℚ
  status : String
  stripe_session_id : Option String
deriving Repr, DecidableEq

/-- Row of the `review` table (src/models.py, class Review), restricted to
the fields the review gate reads or writes. -/
structure Review where
  user_id : Nat
  accommodation_id : Nat
  rating : Nat
deriving Repr, DecidableEq

/-- Row of the `favorite` table (src/models.py, class Favorite). -/
structure Favorite where
  user_id : Nat
  accommodation_id : Nat
deriving Repr, DecidableEq

/-- The persistent state of the application: the four tables the claims
are about, plus the autoincrement counter for booking primary keys. -/
structure AppState where
  accommodations : List Accommodation
  bookings : List Booking
  reviews : List Review
  favorites : List Favorite
  next_booking_id : Nat
deriving Repr, DecidableEq

/-- Embeds `Accommodation.query.get(id)`: first row with the given id. -/
def getAcc (s : AppState) (i : Nat) : Option Accommodation :=
  s.accommodations.find? (fun a => a.id == i)

/-- Embeds `Booking.query.get(id)`: first row with the given id. -/
def getBooking (s : AppState) (i : Nat) : Option Booking :=
  s.bookings.find? (fun b => b.id == i)

/-- Commit of a mutated `Accommodation` ORM object: every row with the
object's primary key becomes the mutated record. -/
def updateAcc (l : List Accommodation) (a : Accommodation) : List Accommodation :=
  l.map (fun x => if x.id = a.id then a else x)

/-- Commit of a mutated `Booking` ORM object: every row with the object's
primary key becomes the mutated record. -/
def updateBooking (l : List Booking) (b : Booking) : List Booking :=
  l.map (fun x => if x.id = b.id then b else x)

/-- Outcome of the `book` route, mirroring its five exits: missing
accommodation (404), `is_full` flash, minimum-amount flash, commit
failure (NOT NULL constraint on `Booking.duration` when the form field is
absent), Stripe-failure flash, and the redirect to the checkout URL. -/
inductive BookResult where
  | notFound
  | fullyBooked
  | belowMinimum
  | dbError
  | paymentSetupFailed
  | redirected (sessionId : String)
deriving Repr, DecidableEq

/-- Embeds the `book` route (src/app.py lines 296-368).
`userId` is `current_user.id`; `duration` is `request.form.get('duration')`
(`none` when the field is missing); `stripeSession` is the outcome of
`stripe.checkout.Session.create` (`some id` on success, `none` when the
provider raises).  A missing duration passes the month/price computation
(`None == 'annual'` is false in Python) but makes the first
`db.session.commit()` raise, because `Booking.duration` is declared
`nullable=False` (src/models.py line 88); the outer handler then aborts
with no row persisted.  On provider failure the freshly committed booking
is deleted again (compensating delete), leaving the rows as before but
the autoincrement counter advanced. -/
def book (s : AppState) (accId userId : Nat) (duration : Option String)
    (stripeSession : Option String) : BookResult × AppState :=
  match getAcc s accId with
  | none => (.notFound, s)
  | some accommodation =>
    if accommodation.is_full then (.fullyBooked, s)
    else
      let months : Nat := if duration = some "annual" then 10 else 5
      let total_price : ℚ := accommodation.price_per_month * (months : ℚ)
      if total_price < 1/2 then (.belowMinimum, s)
      else
        match duration with
        | none => (.dbError, s)
        | some d =>
          let booking : Booking :=
            { id := s.next_booking_id
              user_id := userId
              accommodation_id := accId
              duration := d
              months := months
              total_price := total_price
              status := "approved"
              stripe_session_id := none }
          match stripeSession with
          | none =>
            (.paymentSetupFailed, { s with next_booking_id := s.next_booking_id + 1 })
          | some sid =>
            (.redirected sid,
              { s with
                  bookings := s.bookings ++ [{ booking with stripe_session_id := some sid }]
                  next_booking_id := s.next_booking_id + 1 })

/-- Outcome of the `payment_success` route: missing `session_id` query
parameter, provider read failure (caught exception), successful
confirmation, or the fall-through redirect to the index page. -/
inductive PayResult where
  | invalidSession
  | verificationFailed
  | success (accId : Nat)
  | indexRedirect
deriving Repr, DecidableEq

/-- Embeds the `payment_success` route (src/app.py lines 370-398).
`providerStatus` is the `payment_status` the provider reports for
`sessionId` (`none` models `stripe.checkout.Session.retrieve` raising).
When the provider reports `"paid"` and a booking row carries this session
id, the booking's status is set to `"paid"` — with no check of its
current status — the accommodation's `current_occupancy` is incremented,
and the listing is deactivated when the new occupancy reaches capacity.
If the booking's accommodation row is missing, the attribute access on
`None` raises before the commit, so no change is persisted. -/
def payment_success (s : AppState) (sessionId : Option String)
    (providerStatus : Option String) : PayResult × AppState :=
  match sessionId with
  | none => (.invalidSession, s)
  | some sid =>
    match providerStatus with
    | none => (.verificationFailed, s)
    | some st =>
      if st = "paid" then
        match s.bookings.find? (fun b => b.stripe_session_id == some sid) with
        | none => (.indexRedirect, s)
        | some booking =>
          match getAcc s booking.accommodation_id with
          | none => (.verificationFailed, s)
          | some accommodation =>
            let accommodation' : Accommodation :=
              { accommodation with
                  current_occupancy := accommodation.current_occupancy + 1
                  is_active :=
                    if accommodation.current_occupancy + 1 ≥ accommodation.capacity then
                      false
                    else accommodation.is_active }
            (.success booking.accommodation_id,
              { s with
                  bookings := updateBooking s.bookings { booking with status := "paid" }
                  accommodations := updateAcc s.accommodations accommodation' })
      else (.indexRedirect, s)

/-- Embeds the `payment_cancel` route (src/app.py lines 400-413): the
booking is moved to `"cancelled"` only when its status is `"approved"`;
any other status (including the terminal ones) is left untouched. -/
def payment_cancel (s : AppState) (bookingId : Nat) : AppState :=
  match getBooking s bookingId with
  | none => s
  | some booking =>
    if booking.status = "approved" then
      { s with bookings := updateBooking s.bookings { booking with status := "cancelled" } }
    else s

/-- Rows proving a paid booking by this user for this accommodation, as
queried at src/app.py lines 419-423. -/
def paidBookingQuery (s : AppState) (userId accId : Nat) : Option Booking :=
  s.bookings.find? (fun b =>
    b.user_id == userId && b.accommodation_id == accId && b.status == "paid")

/-- Rows proving an existing review by this user for this accommodation,
as queried at src/app.py lines 429-432. -/
def existingReviewQuery (s : AppState) (userId accId : Nat) : Option Review :=
  s.reviews.find? (fun r => r.user_id == userId && r.accommodation_id == accId)

/-- Outcome of the `submit_review` route: rejected for lack of a paid
booking, rejected as a duplicate, inserted, or dropped because the form
did not validate. -/
inductive ReviewResult where
  | notPaid
  | alreadyReviewed
  | inserted
  | formInvalid
deriving Repr, DecidableEq

/-- Modelled from the spec: `forms.py` (class ReviewForm) is imported by
src/app.py but is not among the sources; the spec's data model gives a
review a "rating (1-5)", so a submitted rating validates exactly when it
lies in 1..5. -/
def reviewFormOk (rating : Nat) : Bool :=
  decide (1 ≤ rating) && decide (rating ≤ 5)

/-- Embeds the `submit_review` route (src/app.py lines 415-455): first the
paid-booking gate, then the duplicate-review gate, then form validation,
and only then the insert. -/
def submit_review (s : AppState) (userId accId rating : Nat) :
    ReviewResult × AppState :=
  match paidBookingQuery s userId accId with
  | none => (.notPaid, s)
  | some _ =>
    match existingReviewQuery s userId accId with
    | some _ => (.alreadyReviewed, s)
    | none =>
      if reviewFormOk rating then
        (.inserted,
          { s with reviews := s.reviews ++ [{ user_id := userId, accommodation_id := accId, rating := rating }] })
      else (.formInvalid, s)

/-- Row membership test for the favorite toggle, as queried at
src/app.py lines 249-252. -/
def favQuery (u a : Nat) : Favorite → Bool :=
  fun f => f.user_id == u && f.accommodation_id == a

/-- Embeds the `toggle_favorite` route (src/app.py lines 245-270): when a
row for the pair exists, that row is deleted and `"removed"` returned;
otherwise a row is inserted and `"added"` returned. -/
def toggle_favorite (s : AppState) (u a : Nat) : String × AppState :=
  match s.favorites.find? (favQuery u a) with
  | some _ => ("removed", { s with favorites := s.favorites.eraseP (favQuery u a) })
  | none => ("added", { s with favorites := s.favorites ++ [{ user_id := u, accommodation_id := a }] })

/-- Membership of the favorite set, the state the spec's toggle property
speaks about. -/
def isFavorite (s : AppState) (u a : Nat) : Bool :=
  s.favorites.any (favQuery u a)

/-- Embeds the field updates of `admin_edit_accommodation`
(src/app.py lines 542-549) restricted to the numeric fields of the model:
the admin form overwrites price, capacity and occupancy directly. -/
def admin_edit_accommodation (s : AppState) (accId : Nat)
    (price : ℚ) (capacity occupancy : Nat) : AppState :=
  match getAcc s accId with
  | none => s
  | some acc =>
    { s with
        accommodations := updateAcc s.accommodations
          { acc with price_per_month := price, capacity := capacity,
                     current_occupancy := occupancy } }

/-! ### Helper lemmas about row lookup after a commit -/

/-- Looking up a committed accommodation by its own id finds exactly the
committed record, as long as some row with that id was present. -/
theorem find?_updateAcc (l : List Accommodation) (a' : Accommodation)
    (h : ∃ x ∈ l, x.id = a'.id) :
    (updateAcc l a').find? (fun x => x.id == a'.id) = some a' := by
  induction l with
  | nil => simp at h
  | cons y t ih =>
    by_cases hy : y.id = a'.id
    · simp only [updateAcc, List.map_cons, if_pos hy]
      exact List.find?_cons_of_pos _ (by simp)
    · obtain ⟨x, hx, hxid⟩ := h
      rcases List.mem_cons.mp hx with rfl | hx
      · exact absurd hxid hy
      · simp only [updateAcc, List.map_cons, if_neg hy]
        rw [List.find?_cons_of_neg _ (by simp [hy])]
        exact ih ⟨x, hx, hxid⟩

/-- Looking up a committed booking by its own id finds exactly the
committed record, as long as some row with that id was present. -/
theorem find?_updateBooking (l : List Booking) (b' : Booking)
    (h : ∃ x ∈ l, x.id = b'.id) :
    (updateBooking l b').find? (fun x => x.id == b'.id) = some b' := by
  induction l with
  | nil => simp at h
  | cons y t ih =>
    by_cases hy : y.id = b'.id
    · simp only [updateBooking, List.map_cons, if_pos hy]
      exact List.find?_cons_of_pos _ (by simp)
    · obtain ⟨x, hx, hxid⟩ := h
      rcases List.mem_cons.mp hx with rfl | hx
      · exact absurd hxid hy
      · simp only [updateBooking, List.map_cons, if_neg hy]
        rw [List.find?_cons_of_neg _ (by simp [hy])]
        exact ih ⟨x, hx, hxid⟩

/-! ### Concrete run exhibiting the overbooking bug (claim C1) -/

/-- Accommodation with a single slot, used in the overbooking run. -/
def demoAcc : Accommodation :=
  { id := 1, price_per_month := 1, capacity := 1, current_occupancy := 0, is_active := true }

/-- Initial state of the overbooking run: one empty single-slot listing. -/
def demoS0 : AppState :=
  { accommodations := [demoAcc], bookings := [], reviews := [], favorites := [],
    next_booking_id := 1 }

/-- User 1 books the listing (not full: 0 < 1), checkout session "s1". -/
def demoS1 : AppState := (book demoS0 1 1 (some "semester") (some "s1")).2

/-- User 2 books the same listing (still not full: occupancy is only
raised at payment confirmation), checkout session "s2". -/
def demoS2 : AppState := (book demoS1 1 2 (some "semester") (some "s2")).2

/-- The provider reports session "s1" paid and it is confirmed. -/
def demoS3 : AppState := (payment_success demoS2 (some "s1") (some "paid")).2

/-- The provider reports session "s2" paid and it is confirmed. -/
def demoS4 : AppState := (payment_success demoS3 (some "s2") (some "paid")).2

/-- Claim C1: the invariant `current_occupancy ≤ capacity` is violated on a
reachable state: two bookings are created while the single-slot listing
is empty, both payments are confirmed, and `payment_success` increments
occupancy past capacity because it never re-checks capacity (src/app.py
lines 384-387). -/
theorem payment_success_overbooks_beyond_capacity :
    ∃ a, getAcc demoS4 1 = some a ∧ ¬ a.current_occupancy ≤ a.capacity := by
  have hq : ¬ ((5:ℚ) < 2⁻¹) := by norm_num
  refine ⟨{ id := 1, price_per_month := 1, capacity := 1, current_occupancy := 2,
            is_active := false }, ?_, by norm_num⟩
  simp [demoS4, demoS3, demoS2, demoS1, demoS0, demoAcc, book, payment_success,
    getAcc, updateAcc, updateBooking, Accommodation.is_full, hq]

/-! ### Concrete run exhibiting the cancelled-to-paid transition (claim C2) -/

/-- Initial state of the cancellation run: an approved booking with
checkout session "t1" on a five-slot listing. -/
def cancelS0 : AppState :=
  { accommodations := [{ id := 1, price_per_month := 1, capacity := 5,
                         current_occupancy := 0, is_active := true }],
    bookings := [{ id := 1, user_id := 1, accommodation_id := 1, duration := "semester",
                   months := 5, total_price := 5, status := "approved",
                   stripe_session_id := some "t1" }],
    reviews := [], favorites := [], next_booking_id := 2 }

/-- The buyer hits the cancel URL: the approved booking becomes cancelled. -/
def cancelS1 : AppState := payment_cancel cancelS0 1

/-- The success URL is then visited and the provider reports the session
paid: `payment_success` never inspects the booking's current status. -/
def cancelS2 : AppState := (payment_success cancelS1 (some "t1") (some "paid")).2

/-- Claim C2: a booking in the terminal status `"cancelled"` is moved to
`"paid"` by `payment_success`, because src/app.py line 382 overwrites the
status without checking it; the claimed edge set (approved→paid,
approved→cancelled, terminal states frozen) is violated. -/
theorem payment_success_revives_cancelled_booking :
    (getBooking cancelS1 1).map Booking.status = some "cancelled" ∧
    (getBooking cancelS2 1).map Booking.status = some "paid" := by
  constructor <;>
    simp [cancelS2, cancelS1, cancelS0, payment_cancel, payment_success,
      getBooking, getAcc, updateBooking, updateAcc]

/-! ### Concrete run exhibiting the replay double-increment (claim C3) -/

/-- Initial state of the replay run: an approved booking with checkout
session "r1" on a two-slot listing. -/
def replayS0 : AppState :=
  { accommodations := [{ id := 1, price_per_month := 1, capacity := 2,
                         current_occupancy := 0, is_active := true }],
    bookings := [{ id := 1, user_id := 1, accommodation_id := 1, duration := "semester",
                   months := 5, total_price := 5, status := "approved",
                   stripe_session_id := some "r1" }],
    reviews := [], favorites := [], next_booking_id := 2 }

/-- First confirmation of session "r1". -/
def replayS1 : AppState := (payment_success replayS0 (some "r1") (some "paid")).2

/-- Replayed confirmation of the same session "r1": the booking row still
carries the session id and still matches, so occupancy rises again. -/
def replayS2 : AppState := (payment_success replayS1 (some "r1") (some "paid")).2

/-- Claim C3: confirming the same already-paid session twice increments
occupancy twice (0 → 1 → 2); src/app.py lines 377-389 have no guard
against replay, contradicting the claimed at-most-once increment. -/
theorem payment_success_replay_double_increments :
    (getAcc replayS1 1).map Accommodation.current_occupancy = some 1 ∧
    (getAcc replayS2 1).map Accommodation.current_occupancy = some 2 := by
  constructor <;>
    simp [replayS2, replayS1, replayS0, payment_success, getAcc, getBooking,
      updateBooking, updateAcc]

/-! ### Payment confirmation (claim C4) -/

/-- Claim C4: when the provider reports a session as paid and a booking
row carries that session id, `payment_success` sets the booking's status
to `"paid"`, increments the referenced accommodation's occupancy by
exactly one, and (for a listing that was active) deactivates it exactly
when the new occupancy reaches capacity. -/
theorem payment_success_paid_updates (s : AppState) (sid : String) (b : Booking)
    (acc : Accommodation)
    (hb : s.bookings.find? (fun x => x.stripe_session_id == some sid) = some b)
    (hacc : getAcc s b.accommodation_id = some acc)
    (hactive : acc.is_active = true) :
    (payment_success s (some sid) (some "paid")).1 = PayResult.success b.accommodation_id ∧
    getBooking (payment_success s (some sid) (some "paid")).2 b.id =
      some { b with status := "paid" } ∧
    (acc.capacity ≤ acc.current_occupancy + 1 →
      getAcc (payment_success s (some sid) (some "paid")).2 b.accommodation_id =
        some { acc with current_occupancy := acc.current_occupancy + 1, is_active := false }) ∧
    (¬ acc.capacity ≤ acc.current_occupancy + 1 →
      getAcc (payment_success s (some sid) (some "paid")).2 b.accommodation_id =
        some { acc with current_occupancy := acc.current_occupancy + 1, is_active := true }) := by
  have hmemb : b ∈ s.bookings := List.mem_of_find?_eq_some hb
  have hmema : acc ∈ s.accommodations := by
    unfold getAcc at hacc
    exact List.mem_of_find?_eq_some hacc
  have haccid : acc.id = b.accommodation_id := by
    unfold getAcc at hacc
    simpa using List.find?_some hacc
  refine ⟨?_, ?_, ?_, ?_⟩
  · simp [payment_success, hb, hacc]
  · have key : (payment_success s (some sid) (some "paid")).2.bookings =
        updateBooking s.bookings { b with status := "paid" } := by
      simp [payment_success, hb, hacc]
    rw [getBooking, key]
    exact find?_updateBooking s.bookings { b with status := "paid" } ⟨b, hmemb, rfl⟩
  · intro h
    have key : (payment_success s (some sid) (some "paid")).2.accommodations =
        updateAcc s.accommodations
          { acc with current_occupancy := acc.current_occupancy + 1, is_active := false } := by
      simp [payment_success, hb, hacc, h]
    rw [getAcc, key, ← haccid]
    exact find?_updateAcc s.accommodations
      { acc with current_occupancy := acc.current_occupancy + 1, is_active := false }
      ⟨acc, hmema, rfl⟩
  · intro h
    have key : (payment_success s (some sid) (some "paid")).2.accommodations =
        updateAcc s.accommodations
          { acc with current_occupancy := acc.current_occupancy + 1, is_active := true } := by
      simp [payment_success, hb, hacc, h, hactive]
    rw [getAcc, key, ← haccid]
    exact find?_updateAcc s.accommodations
      { acc with current_occupancy := acc.current_occupancy + 1, is_active := true }
      ⟨acc, hmema, rfl⟩

/-- Single-slot listing of the spec scenario, price 1000 per month. -/
def confirmAcc : Accommodation :=
  { id := 1, price_per_month := 1000, capacity := 1, current_occupancy := 0, is_active := true }

/-- Approved semester booking of the spec scenario: 5 months at 1000,
total 5000, checkout session "cs1". -/
def confirmBooking : Booking :=
  { id := 1, user_id := 1, accommodation_id := 1, duration := "semester", months := 5,
    total_price := 5000, status := "approved", stripe_session_id := some "cs1" }

/-- State of the spec scenario just before payment confirmation. -/
def confirmS : AppState :=
  { accommodations := [confirmAcc], bookings := [confirmBooking], reviews := [],
    favorites := [], next_booking_id := 2 }

/-- Witness for C4: the spec's concrete scenario (capacity 1, occupancy 0,
semester at 1000): after confirmation the booking is paid, occupancy is 1
and the listing is deactivated. -/
theorem payment_success_paid_updates_witness :
    (payment_success confirmS (some "cs1") (some "paid")).1 = PayResult.success 1 ∧
    getBooking (payment_success confirmS (some "cs1") (some "paid")).2 1 =
      some { confirmBooking with status := "paid" } ∧
    getAcc (payment_success confirmS (some "cs1") (some "paid")).2 1 =
      some { confirmAcc with current_occupancy := 1, is_active := false } := by
  have h := payment_success_paid_updates confirmS "cs1" confirmBooking confirmAcc rfl rfl rfl
  exact ⟨h.1, h.2.1, h.2.2.1 (by decide)⟩

/-! ### Booking creation (claims C5, C6, C7, C10) -/

/-- Claim C5: `book` fails without creating a booking when the
accommodation is full; otherwise (for the two documented duration
choices, a successful provider call and an amount above the provider
minimum) it maps semester to 5 months and annual to 10 months and
persists a booking with `total_price = price_per_month * months` and
status `"approved"`. -/
theorem book_full_or_persists (s : AppState) (accId userId : Nat) (acc : Accommodation)
    (d sid : String)
    (hacc : getAcc s accId = some acc)
    (hd : d = "semester" ∨ d = "annual") :
    (acc.is_full = true → book s accId userId (some d) (some sid) = (.fullyBooked, s)) ∧
    (acc.is_full = false →
      ¬ acc.price_per_month * (((if d = "annual" then 10 else 5) : ℕ) : ℚ) < 1/2 →
      book s accId userId (some d) (some sid) =
        (.redirected sid,
          { s with
              bookings := s.bookings ++
                [{ id := s.next_booking_id, user_id := userId, accommodation_id := accId,
                   duration := d, months := if d = "annual" then 10 else 5,
                   total_price :=
                     acc.price_per_month * (((if d = "annual" then 10 else 5) : ℕ) : ℚ),
                   status := "approved", stripe_session_id := some sid }]
              next_booking_id := s.next_booking_id + 1 })) := by
  constructor
  · intro hfull
    simp [book, hacc, hfull]
  · intro hfull hmin
    rcases hd with rfl | rfl
    · simp only [book, hacc, hfull]
      simp
      simpa using hmin
    · simp only [book, hacc, hfull]
      simp
      simpa using hmin

/-- Two-slot listing at price 100 per month, used by the booking
witnesses. -/
def wBookAcc : Accommodation :=
  { id := 1, price_per_month := 100, capacity := 2, current_occupancy := 0, is_active := true }

/-- Empty-booking state holding `wBookAcc`. -/
def wBookS : AppState :=
  { accommodations := [wBookAcc], bookings := [], reviews := [], favorites := [],
    next_booking_id := 1 }

/-- Witness for C5: an annual booking at price 100 persists 10 months and
total price 1000 in `"approved"` status. -/
theorem book_full_or_persists_witness :
    wBookAcc.is_full = false ∧
    book wBookS 1 7 (some "annual") (some "w5") =
      (.redirected "w5",
        { wBookS with
            bookings := [{ id := 1, user_id := 7, accommodation_id := 1, duration := "annual",
                           months := 10, total_price := 1000, status := "approved",
                           stripe_session_id := some "w5" }]
            next_booking_id := 2 }) := by
  refine ⟨rfl, ?_⟩
  have h := (book_full_or_persists wBookS 1 7 wBookAcc "annual" "w5" rfl (Or.inr rfl)).2
    rfl (by norm_num [wBookAcc])
  rw [h]
  norm_num [wBookS, wBookAcc]

/-- Claim C6: a booking attempt whose computed total price is below the
provider's minimum chargeable amount (1/2 rand) is rejected and the state
is left unchanged, so no booking is persisted. -/
theorem book_rejects_below_minimum (s : AppState) (accId userId : Nat)
    (d stripeSession : Option String) (acc : Accommodation)
    (hacc : getAcc s accId = some acc)
    (hfull : acc.is_full = false)
    (hmin : acc.price_per_month * (((if d = some "annual" then 10 else 5) : ℕ) : ℚ) < 1/2) :
    book s accId userId d stripeSession = (.belowMinimum, s) := by
  simp only [book, hacc, hfull]
  simp
  intro h
  exact absurd h (by simpa using hmin)

/-- Listing priced so that a semester booking computes to 0.40. -/
def wCheapAcc : Accommodation :=
  { id := 1, price_per_month := 2/25, capacity := 2, current_occupancy := 0, is_active := true }

/-- Empty-booking state holding `wCheapAcc`. -/
def wCheapS : AppState :=
  { accommodations := [wCheapAcc], bookings := [], reviews := [], favorites := [],
    next_booking_id := 1 }

/-- Witness for C6: the spec scenario where the computed total price is
0.40 (= 2/5): the booking is rejected and nothing is persisted. -/
theorem book_rejects_below_minimum_witness :
    wCheapAcc.price_per_month * ((5 : ℕ) : ℚ) = 2/5 ∧
    book wCheapS 1 1 (some "semester") (some "w6") = (.belowMinimum, wCheapS) := by
  refine ⟨by norm_num [wCheapAcc], ?_⟩
  refine book_rejects_below_minimum wCheapS 1 1 (some "semester") (some "w6") wCheapAcc
    rfl rfl ?_
  rw [if_neg (show ¬((some "semester" : Option String) = some "annual") from by decide)]
  norm_num [wCheapAcc]

/-- Claim C7: when the provider fails to create a payment session after
the tentative booking was committed, the booking is deleted again and no
table differs from the initial state (only the autoincrement counter has
advanced). -/
theorem book_rolls_back_on_provider_failure (s : AppState) (accId userId : Nat)
    (d : String) (acc : Accommodation)
    (hacc : getAcc s accId = some acc)
    (hfull : acc.is_full = false)
    (hmin : ¬ acc.price_per_month * (((if d = "annual" then 10 else 5) : ℕ) : ℚ) < 1/2) :
    (book s accId userId (some d) none).1 = BookResult.paymentSetupFailed ∧
    (book s accId userId (some d) none).2.bookings = s.bookings ∧
    (book s accId userId (some d) none).2.accommodations = s.accommodations ∧
    (book s accId userId (some d) none).2.reviews = s.reviews ∧
    (book s accId userId (some d) none).2.favorites = s.favorites := by
  have key : book s accId userId (some d) none =
      (.paymentSetupFailed, { s with next_booking_id := s.next_booking_id + 1 }) := by
    simp only [book, hacc, hfull]
    simp
    simpa using hmin
  rw [key]
  exact ⟨rfl, rfl, rfl, rfl, rfl⟩

/-- Witness for C7: a provider failure during a semester booking leaves
the booking table empty. -/
theorem book_rolls_back_on_provider_failure_witness :
    (book wBookS 1 7 (some "semester") none).1 = BookResult.paymentSetupFailed ∧
    (book wBookS 1 7 (some "semester") none).2.bookings = [] := by
  have h := book_rolls_back_on_provider_failure wBookS 1 7 "semester" wBookAcc
    rfl rfl (by
      rw [if_neg (show ¬(("semester" : String) = "annual") from by decide)]
      norm_num [wBookAcc])
  exact ⟨h.1, h.2.1⟩

/-- Claim C10 (amended): every present duration string other than
`"annual"` falls into the semester default: 5 months and
`total_price = price_per_month * 5`, with no validation error. The
original claim also covered a missing duration, which instead fails at
commit (see `book_missing_duration_creates_no_booking`). -/
theorem book_defaults_nonannual_to_semester (s : AppState) (accId userId : Nat)
    (acc : Accommodation) (d sid : String)
    (hacc : getAcc s accId = some acc)
    (hd : d ≠ "annual")
    (hfull : acc.is_full = false)
    (hmin : ¬ acc.price_per_month * ((5 : ℕ) : ℚ) < 1/2) :
    book s accId userId (some d) (some sid) =
      (.redirected sid,
        { s with
            bookings := s.bookings ++
              [{ id := s.next_booking_id, user_id := userId, accommodation_id := accId,
                 duration := d, months := 5,
                 total_price := acc.price_per_month * ((5 : ℕ) : ℚ),
                 status := "approved", stripe_session_id := some sid }]
            next_booking_id := s.next_booking_id + 1 }) := by
  simp only [book, hacc, hfull]
  simp [hd]
  simpa using hmin

/-- Two-slot listing state for the missing-duration run. -/
def missingDurS : AppState :=
  { accommodations := [{ id := 1, price_per_month := 1, capacity := 2,
                         current_occupancy := 0, is_active := true }],
    bookings := [], reviews := [], favorites := [], next_booking_id := 1 }

/-- Claim C10, counterexample: with the duration field missing from the
form, `book` does not create a 5-month booking; the commit fails on the
NOT NULL constraint of `Booking.duration` (src/models.py line 88) and the
booking table stays empty. -/
theorem book_missing_duration_creates_no_booking :
    (book missingDurS 1 1 none (some "sx")).1 = BookResult.dbError ∧
    (book missingDurS 1 1 none (some "sx")).2.bookings = [] := by
  have hq : ¬ ((5:ℚ) < 2⁻¹) := by norm_num
  constructor <;> simp [book, missingDurS, getAcc, Accommodation.is_full, hq]

/-- Witness for C10 (amended): an unrecognized duration string
`"monthly"` produces a 5-month booking at semester pricing. -/
theorem book_defaults_nonannual_to_semester_witness :
    book wBookS 1 3 (some "monthly") (some "w10") =
      (.redirected "w10",
        { wBookS with
            bookings := [{ id := 1, user_id := 3, accommodation_id := 1,
                           duration := "monthly", months := 5, total_price := 500,
                           status := "approved", stripe_session_id := some "w10" }]
            next_booking_id := 2 }) := by
  have h := book_defaults_nonannual_to_semester wBookS 1 3 wBookAcc "monthly" "w10"
    rfl (by decide) rfl (by norm_num [wBookAcc])
  rw [h]
  norm_num [wBookS, wBookAcc]

/-! ### Review gate (claim C8) -/

/-- Claim C8: for a submission whose rating validates, `submit_review`
inserts a review exactly when a paid booking for the (user, accommodation)
pair exists and no review for the pair exists yet; in every other case it
fails and the state (in particular the review table) is unchanged. -/
theorem submit_review_gate (s : AppState) (userId accId rating : Nat)
    (hr : reviewFormOk rating = true) :
    ((submit_review s userId accId rating).1 = ReviewResult.inserted ↔
      (paidBookingQuery s userId accId).isSome = true ∧
        existingReviewQuery s userId accId = none) ∧
    ((submit_review s userId accId rating).1 = ReviewResult.inserted →
      (submit_review s userId accId rating).2.reviews =
        s.reviews ++ [{ user_id := userId, accommodation_id := accId, rating := rating }]) ∧
    ((submit_review s userId accId rating).1 ≠ ReviewResult.inserted →
      (submit_review s userId accId rating).2 = s) := by
  rcases hpb : paidBookingQuery s userId accId with _ | b <;>
    rcases her : existingReviewQuery s userId accId with _ | r <;>
      simp [submit_review, hpb, her, hr]

/-- Paid booking enabling the review-gate witness. -/
def wRevBooking : Booking :=
  { id := 1, user_id := 1, accommodation_id := 1, duration := "semester", months := 5,
    total_price := 5, status := "paid", stripe_session_id := some "q1" }

/-- State with one paid booking and no reviews. -/
def wRevS : AppState :=
  { accommodations := [], bookings := [wRevBooking], reviews := [], favorites := [],
    next_booking_id := 2 }

/-- Witness for C8: a user with a paid booking and no prior review gets a
rating-4 review inserted. -/
theorem submit_review_gate_witness :
    (submit_review wRevS 1 1 4).1 = ReviewResult.inserted ∧
    (submit_review wRevS 1 1 4).2.reviews =
      [{ user_id := 1, accommodation_id := 1, rating := 4 }] := by
  have h := submit_review_gate wRevS 1 1 4 rfl
  have h1 : (submit_review wRevS 1 1 4).1 = ReviewResult.inserted := h.1.mpr ⟨rfl, rfl⟩
  exact ⟨h1, h.2.1 h1⟩

/-! ### Favorites toggle (claim C9) -/

/-- Erasing the first match from a list holding at most one match leaves
no match behind. -/
theorem any_eraseP_eq_false {α : Type} (p : α → Bool) :
    ∀ l : List α, l.countP p ≤ 1 → (l.eraseP p).any p = false := by
  intro l
  induction l with
  | nil => intro _; simp
  | cons x t ih =>
    intro h
    by_cases hx : p x = true
    · rw [List.eraseP_cons_of_pos hx]
      have h0 : t.countP p = 0 := by
        simp only [List.countP_cons_of_pos _ _ hx] at h
        omega
      simp only [List.any_eq_false]
      exact List.countP_eq_zero.mp h0
    · rw [List.eraseP_cons_of_neg hx]
      simp only [List.any_cons, Bool.or_eq_false_iff]
      refine ⟨by simpa using hx, ?_⟩
      refine ih ?_
      simpa only [List.countP_cons_of_neg _ _ hx] using h

/-- Claim C9: on a state whose favorite table has at most one row for the
pair (as the toggle itself maintains), `toggle_favorite` adds the pair
and returns `"added"` when it is absent, deletes it and returns
`"removed"` when it is present, and toggling twice restores the original
membership state. -/
theorem toggle_favorite_spec (s : AppState) (u a : Nat)
    (hdup : s.favorites.countP (favQuery u a) ≤ 1) :
    (isFavorite s u a = false →
      (toggle_favorite s u a).1 = "added" ∧
      isFavorite (toggle_favorite s u a).2 u a = true) ∧
    (isFavorite s u a = true →
      (toggle_favorite s u a).1 = "removed" ∧
      isFavorite (toggle_favorite s u a).2 u a = false) ∧
    isFavorite (toggle_favorite (toggle_favorite s u a).2 u a).2 u a = isFavorite s u a := by
  have hpa : favQuery u a { user_id := u, accommodation_id := a } = true := by
    simp [favQuery]
  cases hf : s.favorites.find? (favQuery u a) with
  | none =>
    have hnone : s.favorites.any (favQuery u a) = false := by
      simp only [List.any_eq_false]
      exact List.find?_eq_none.mp hf
    have ht : toggle_favorite s u a =
        ("added", { s with favorites :=
          s.favorites ++ [{ user_id := u, accommodation_id := a }] }) := by
      simp [toggle_favorite, hf]
    have hf2 : (s.favorites ++ [({ user_id := u, accommodation_id := a } : Favorite)]).find?
        (favQuery u a) = some { user_id := u, accommodation_id := a } := by
      rw [List.find?_append]
      simp [hf, List.find?_cons_of_pos _ hpa]
    have herase : (s.favorites ++ [({ user_id := u, accommodation_id := a } : Favorite)]).eraseP
        (favQuery u a) = s.favorites := by
      rw [List.eraseP_append_right _ (List.find?_eq_none.mp hf)]
      simp [List.eraseP_cons_of_pos hpa]
    refine ⟨fun _ => ⟨by rw [ht], ?_⟩, fun hT => ?_, ?_⟩
    · rw [ht]
      simp [isFavorite, hpa]
    · exact absurd hT (by simp [isFavorite, hnone])
    · rw [ht]
      have ht2 : toggle_favorite
          { s with favorites := s.favorites ++ [{ user_id := u, accommodation_id := a }] } u a =
          ("removed", { s with favorites := s.favorites }) := by
        simp [toggle_favorite, hf2, herase]
      rw [ht2]
  | some f =>
    have hft : favQuery u a f = true := List.find?_some hf
    have hsome : s.favorites.any (favQuery u a) = true := by
      simp only [List.any_eq_true]
      exact ⟨f, List.mem_of_find?_eq_some hf, hft⟩
    have ht : toggle_favorite s u a =
        ("removed", { s with favorites := s.favorites.eraseP (favQuery u a) }) := by
      simp [toggle_favorite, hf]
    have herase : (s.favorites.eraseP (favQuery u a)).any (favQuery u a) = false :=
      any_eraseP_eq_false _ _ hdup
    have hf2 : (s.favorites.eraseP (favQuery u a)).find? (favQuery u a) = none := by
      simp only [List.find?_eq_none]
      exact List.any_eq_false.mp herase
    refine ⟨fun hF => absurd hsome (by simp [isFavorite] at hF; simpa using hF),
      fun _ => ⟨by rw [ht], ?_⟩, ?_⟩
    · rw [ht]
      simpa [isFavorite] using herase
    · rw [ht]
      have ht2 : toggle_favorite
          { s with favorites := s.favorites.eraseP (favQuery u a) } u a =
          ("added", { s with favorites :=
            s.favorites.eraseP (favQuery u a) ++ [{ user_id := u, accommodation_id := a }] }) := by
        simp [toggle_favorite, hf2]
      rw [ht2]
      simp [isFavorite, hsome, hpa]

/-- Empty state for the favorites witness. -/
def wFavS : AppState :=
  { accommodations := [], bookings := [], reviews := [], favorites := [],
    next_booking_id := 1 }

/-- Witness for C9: from an empty favorite table, the toggle reports
`"added"`, the pair becomes a favorite, and a second toggle restores the
original (absent) membership. -/
theorem toggle_favorite_spec_witness :
    (toggle_favorite wFavS 1 2).1 = "added" ∧
    isFavorite (toggle_favorite wFavS 1 2).2 1 2 = true ∧
    isFavorite (toggle_favorite (toggle_favorite wFavS 1 2).2 1 2).2 1 2 =
      isFavorite wFavS 1 2 := by
  have h := toggle_favorite_spec wFavS 1 2 (by simp [wFavS])
  exact ⟨(h.1 rfl).1, (h.1 rfl).2, h.2.2⟩
